import Mathlib

/-!
Verification of the Docwise usage-metering and AI-generation pipeline.

The definitions below are a shallow embedding of the TypeScript source:
* `getPlanLimits`, `checkUsageLimits`, `getUserUsageData` from
  `src/lib/subscription.ts`;
* the `gemini-generate` Supabase edge function
  (`supabase/functions/gemini-generate/index.ts`), modelled as a pure
  function of the request, the database row, the completion-service
  outcome and the success of the usage-update write;
* `detectDocumentType` / `detectCountry` from
  `src/components/EnhancedAIChat.tsx`;
* `handleDeleteDocument` from the dashboard page;
* the document-ownership check of the summarize edge function and the
  row-level-security policies of the `documents` table.

External effects (auth lookups, database reads/writes, the completion
HTTP call) are passed in as explicit oracle arguments, and each function
returns both its response and the new database state.
-/

namespace Docwise

/-! ## Data model -/

/-- A `user_usage` row as read by the edge functions and the client:
`ai_generations_used` and `plan`. -/
structure UsageRow where
  ai_generations_used : Nat
  plan : String
  deriving Repr, DecidableEq

/-- A `documents` row (id, owner, title, content). -/
structure Document where
  id : Nat
  user_id : Nat
  title : String
  content : String
  deriving Repr, DecidableEq

/-! ## Usage/Plan policy (src/lib/subscription.ts) -/

/-- Plan limits as returned by `getPlanLimits` in `src/lib/subscription.ts`. -/
structure PlanLimits where
  aiGenerations : Int
  documents : Int
  features : List String
  deriving Repr, DecidableEq

/-- `getPlanLimits` from `src/lib/subscription.ts`: a switch over the plan
name with a default case equal to the `free` branch. -/
def getPlanLimits (plan : String) : PlanLimits :=
  if plan = "free" then
    { aiGenerations := 1, documents := 3,
      features := ["Basic templates", "PDF export", "Email support"] }
  else if plan = "pro" then
    { aiGenerations := 10, documents := 50,
      features := ["All templates", "PDF and Google export", "Priority support", "Team collaboration"] }
  else if plan = "business" then
    { aiGenerations := -1, documents := -1,
      features := ["Everything in Pro", "Custom templates", "API access", "Dedicated support", "Advanced analytics"] }
  else
    { aiGenerations := 1, documents := 3,
      features := ["Basic templates", "PDF export", "Email support"] }

/-- The core allow/deny comparison used by `checkUsageLimits`:
`limits.aiGenerations === -1 || used < limits.aiGenerations`. -/
def clientAllows (limit : Int) (used : Nat) : Bool :=
  limit = -1 || (used : Int) < limit

/-- Result shape of `checkUsageLimits`. -/
structure UsageCheckResult where
  canUseAI : Bool
  canCreateDocument : Bool
  aiUsed : Nat
  aiLimit : Int
  docUsed : Nat
  docLimit : Int
  deriving Repr, DecidableEq

/-- The value the `catch` branch of `checkUsageLimits` returns: both
actions denied, free-plan default limits in the reported usage. -/
def usageCheckFailClosed : UsageCheckResult :=
  { canUseAI := false, canCreateDocument := false,
    aiUsed := 0, aiLimit := 1, docUsed := 0, docLimit := 3 }

/-- `checkUsageLimits` from `src/lib/subscription.ts`.  The oracle
arguments stand for the awaited calls: `user` is the authenticated user
(`none` when not signed in), `usage` the result of `getUserUsageData`
(`none` on its null/error result), `docCount` the document count
(`none` when the count query errors).  Any of the three failing takes
the `catch` branch. -/
def checkUsageLimits (user : Option Nat) (usage : Option UsageRow)
    (docCount : Option Nat) : UsageCheckResult :=
  match user with
  | none => usageCheckFailClosed
  | some _ =>
    match usage with
    | none => usageCheckFailClosed
    | some u =>
      match docCount with
      | none => usageCheckFailClosed
      | some n =>
        let limits := getPlanLimits u.plan
        { canUseAI := clientAllows limits.aiGenerations u.ai_generations_used,
          canCreateDocument := clientAllows limits.documents n,
          aiUsed := u.ai_generations_used, aiLimit := limits.aiGenerations,
          docUsed := n, docLimit := limits.documents }

/-! ## getUserUsageData (src/lib/subscription.ts) -/

/-- `getUserUsageData`: fetches the caller's `user_usage` row, lazily
inserting a zeroed `free` row when none exists.  `user` is the
authenticated user; `db` the existing row (`none` means the select
returns no rows, the PGRST116 case); `fetchFails` a non-PGRST116 select
error; `insertFails` an insert error.  Returns the value handed to the
caller (null on any caught error) and the new database row. -/
def getUserUsageData (user : Option Nat) (db : Option UsageRow)
    (fetchFails insertFails : Bool) : Option UsageRow × Option UsageRow :=
  match user with
  | none => (none, db)
  | some _ =>
    if fetchFails then (none, db)
    else
      match db with
      | some row => (some row, db)
      | none =>
        if insertFails then (none, db)
        else (some ⟨0, "free"⟩, some ⟨0, "free"⟩)

/-! ## The gemini-generate edge function -/

/-- JavaScript whitespace for the purposes of `String.prototype.trim`
(the characters that can occur in our modelled requests). -/
def isJsSpace (c : Char) : Bool :=
  c = ' ' || c = '\t' || c = '\n' || c = '\r'

/-- JavaScript `s.trim()` on the character list of a string: drop
whitespace from both ends. -/
def jsTrim (s : String) : List Char :=
  ((s.data.dropWhile isJsSpace).reverse.dropWhile isJsSpace).reverse

/-- The emptiness test `s.trim().length === 0` used by the edge
function's input validation. -/
def jsTrimEmpty (s : String) : Bool :=
  (jsTrim s).length = 0

/-- The fixed limits table inside the edge function:
`const limits = \x7b free: 1, pro: 10, business: -1 \x7d`. -/
def limitsLookup (plan : String) : Option Int :=
  if plan = "free" then some 1
  else if plan = "pro" then some 10
  else if plan = "business" then some (-1)
  else none

/-- JavaScript `limits[plan] || 1`: `undefined` and the falsy `0` both
fall through to the default `1`. -/
def jsOrOne (v : Option Int) : Int :=
  match v with
  | none => 1
  | some x => if x = 0 then 1 else x

/-- `const userLimit = limits[usage.plan as keyof typeof limits] || 1`. -/
def userLimitFor (plan : String) : Int := jsOrOne (limitsLookup plan)

/-- The edge-function denial guard:
`userLimit > 0 && usage.ai_generations_used >= userLimit`. -/
def serverLimitDenies (limit : Int) (used : Nat) : Bool :=
  limit > 0 && limit ≤ (used : Int)

/-- One element of `candidates[0].content.parts` in the completion
response; `text` may be absent. -/
structure GeminiPart where
  text : Option String
  deriving Repr, DecidableEq

/-- `candidates[i].content`; the `parts` array may be absent. -/
structure GeminiContent where
  parts : Option (List GeminiPart)
  deriving Repr, DecidableEq

/-- One completion candidate; `content` may be absent. -/
structure GeminiCandidate where
  content : Option GeminiContent
  deriving Repr, DecidableEq

/-- Outcome of the completion-service HTTP call: a non-ok HTTP status, or
an ok response whose `candidates` field may be absent. -/
inductive GeminiResult where
  | httpError (status : Nat) (body : String)
  | ok (candidates : Option (List GeminiCandidate))
  deriving Repr, DecidableEq

/-- The candidate-extraction chain of the edge function: candidates must
be a non-empty array, the first candidate must have `content`, the
content non-empty `parts`, and `parts[0].text` must be a non-empty
trimmed string.  Returns the generated text, or `none` when any check
fails (including an HTTP-level error). -/
def extractContent (g : GeminiResult) : Option String :=
  match g with
  | .httpError _ _ => none
  | .ok candOpt =>
    match candOpt with
    | none => none
    | some [] => none
    | some (c :: _) =>
      match c.content with
      | none => none
      | some content =>
        match content.parts with
        | none => none
        | some [] => none
        | some (p :: _) =>
          match p.text with
          | none => none
          | some t => if jsTrimEmpty t then none else some t

/-- `true` exactly when the completion call counts as a failure for the
edge function: HTTP error, or a response from which no non-empty text
can be extracted. -/
def geminiFails (g : GeminiResult) : Bool :=
  (extractContent g).isNone

/-- The `usage` snapshot in the success response. -/
structure UsageSnapshot where
  used : Nat
  limit : Int
  plan : String
  deriving Repr, DecidableEq

/-- The JSON response of the edge function, together with its HTTP
status. -/
structure GenResponse where
  status : Nat
  success : Bool
  error : Option String
  limit_reached : Bool
  content : Option String
  usage : Option UsageSnapshot
  deriving Repr, DecidableEq

/-- Everything observable about one run of the edge function: the
response, the `user_usage` row afterwards, and whether the completion
service was called at all. -/
structure GenOutcome where
  response : GenResponse
  newUsage : Option UsageRow
  geminiCalled : Bool
  deriving Repr, DecidableEq

/-- An error response of the edge function (only `error`, and
`limit_reached` on the 429). -/
def errResponse (status : Nat) (msg : String) : GenResponse :=
  { status := status, success := false, error := some msg,
    limit_reached := false, content := none, usage := none }

/-- Request method as the handler distinguishes it. -/
inductive ReqMethod where
  | options
  | post
  | other
  deriving Repr, DecidableEq

/-- The `gemini-generate` edge function
(`supabase/functions/gemini-generate/index.ts`), as a function of the
request and of oracles for the awaited effects: `keyConfigured` whether
`GEMINI_API_KEY` is set; `authUser` the user resolved from the bearer
token; `usageRow` the caller's `user_usage` row (`none` makes the
`.single()` select error); `gemini` the completion-service outcome; and
`updateOk` whether the usage-update write succeeds (the code logs and
continues when it does not). -/
def geminiGenerate (method : ReqMethod) (keyConfigured : Bool)
    (authUser : Option String) (prompt document_type : String)
    (usageRow : Option UsageRow) (gemini : GeminiResult)
    (updateOk : Bool) : GenOutcome :=
  match method with
  | .options =>
    { response := { status := 200, success := false, error := none,
                    limit_reached := false, content := none, usage := none },
      newUsage := usageRow, geminiCalled := false }
  | .other =>
    { response := errResponse 405 "Method not allowed",
      newUsage := usageRow, geminiCalled := false }
  | .post =>
    if !keyConfigured then
      { response := errResponse 500 "Gemini API not configured",
        newUsage := usageRow, geminiCalled := false }
    else
      match authUser with
      | none =>
        { response := errResponse 401 "Unauthorized",
          newUsage := usageRow, geminiCalled := false }
      | some _ =>
        if jsTrimEmpty prompt then
          { response := errResponse 400 "Prompt is missing, empty, or invalid",
            newUsage := usageRow, geminiCalled := false }
        else if jsTrimEmpty document_type then
          { response := errResponse 400 "Document type is missing or invalid",
            newUsage := usageRow, geminiCalled := false }
        else
          match usageRow with
          | none =>
            { response := errResponse 500 "Failed to check usage limits",
              newUsage := usageRow, geminiCalled := false }
          | some usage =>
            let userLimit := userLimitFor usage.plan
            if serverLimitDenies userLimit usage.ai_generations_used then
              { response :=
                  { status := 429, success := false,
                    error := some "AI generation limit reached. Please upgrade your plan to continue.",
                    limit_reached := true, content := none, usage := none },
                newUsage := usageRow, geminiCalled := false }
            else
              match extractContent gemini with
              | none =>
                { response := errResponse 500 "Gemini generation failed",
                  newUsage := usageRow, geminiCalled := true }
              | some text =>
                { response :=
                    { status := 200, success := true, error := none,
                      limit_reached := false, content := some text,
                      usage := some { used := usage.ai_generations_used + 1,
                                      limit := userLimit, plan := usage.plan } },
                  newUsage :=
                    if updateOk then
                      some { ai_generations_used := usage.ai_generations_used + 1,
                             plan := usage.plan }
                    else usageRow,
                  geminiCalled := true }

/-! ## Heuristic intent detection (src/components/EnhancedAIChat.tsx) -/

/-- Character-list version of JavaScript `startsWith`: the second list is
an initial segment of the first. -/
def startsWithChars : List Char → List Char → Bool
  | _, [] => true
  | [], _ :: _ => false
  | a :: as, b :: bs => a = b && startsWithChars as bs

/-- Character-list version of JavaScript `String.prototype.includes`. -/
def hasSub (needle : List Char) : List Char → Bool
  | [] => needle.isEmpty
  | c :: rest => startsWithChars (c :: rest) needle || hasSub needle rest

/-- `message.toLowerCase().includes(pat)` as the detection functions use
it: lowercase the message, then scan for the (already lowercase)
pattern. -/
def lowerIncludes (message pat : String) : Bool :=
  hasSub pat.data (message.data.map Char.toLower)

/-- `detectDocumentType` from `EnhancedAIChat.tsx`: ordered substring
rules over the lowercased message, defaulting to `nda`. -/
def detectDocumentType (message : String) : String :=
  if lowerIncludes message "privacy policy" || lowerIncludes message "privacy"
      || lowerIncludes message "gdpr" then "privacy"
  else if lowerIncludes message "nda" || lowerIncludes message "non-disclosure" then "nda"
  else if lowerIncludes message "partnership" then "partnership"
  else if lowerIncludes message "terms of service" || lowerIncludes message "tos" then "terms"
  else if lowerIncludes message "employment" then "employment"
  else if lowerIncludes message "freelance" then "freelance"
  else if lowerIncludes message "consulting" then "consulting"
  else "nda"

/-- `detectCountry` from `EnhancedAIChat.tsx`: ordered substring rules
over the lowercased message, defaulting to `Netherlands`. -/
def detectCountry (message : String) : String :=
  if lowerIncludes message "netherlands" || lowerIncludes message "dutch" then "Netherlands"
  else if lowerIncludes message "united states" || lowerIncludes message "usa" then "US"
  else if lowerIncludes message "united kingdom" || lowerIncludes message "uk" then "UK"
  else if lowerIncludes message "germany" || lowerIncludes message "german" then "DE"
  else if lowerIncludes message "france" || lowerIncludes message "french" then "FR"
  else "Netherlands"

/-! ## Document deletion (dashboard page) -/

/-- Caller-visible outcome of `handleDeleteDocument`: the success toast,
or the caught-error toast. -/
inductive DeleteOutcome where
  | success
  | failure
  deriving Repr, DecidableEq

/-- The Supabase `delete().eq(id).eq(user_id)` call: removes every row
matching both filters and reports no error, whether or not any row
matched (deleting an absent id is not an error). -/
def supabaseDeleteDocument (docs : List Document) (did uid : Nat) :
    List Document × Bool :=
  (docs.filter (fun d => !(d.id = did && d.user_id = uid)), false)

/-- `handleDeleteDocument` from the dashboard page: issues the delete
and rethrows only a reported error (which the surrounding `catch` turns
into the failure toast).  Returns the caller-visible outcome and the
table afterwards. -/
def handleDeleteDocument (docs : List Document) (did uid : Nat) :
    DeleteOutcome × List Document :=
  let r := supabaseDeleteDocument docs did uid
  if r.2 then (.failure, docs) else (.success, r.1)

/-! ## Document ownership (summarize edge function and RLS policies) -/

/-- The ownership query of the summarize edge function:
`select id from documents where id = document_id and user_id = user.id`
followed by `.single()`, which yields a row only when the filter matches
exactly one row. -/
def findOwnedDocument (docs : List Document) (did uid : Nat) :
    Option Document :=
  match docs.filter (fun d => d.id = did && d.user_id = uid) with
  | [d] => some d
  | _ => none

/-- The HTTP status the summarize handler produces at its ownership
check: 404 when the query returns no row, 200 meaning the handler
proceeds. -/
def summarizeOwnershipStatus (docs : List Document) (did uid : Nat) : Nat :=
  match findOwnedDocument docs did uid with
  | none => 404
  | some _ => 200

/-- The rows of the `documents` table visible to a caller under the RLS
select policy `auth.uid() = user_id`. -/
def rlsVisible (docs : List Document) (uid : Nat) : List Document :=
  docs.filter (fun d => d.user_id = uid)

/-- An update of `(title, content)` on a document id under the RLS update
policy `auth.uid() = user_id`: only rows that match the id and are owned
by the caller change.  Returns the table afterwards and the number of
rows affected. -/
def rlsUpdateDocument (docs : List Document) (uid did : Nat)
    (t c : String) : List Document × Nat :=
  (docs.map (fun d =>
      if d.id = did && d.user_id = uid then
        { d with title := t, content := c }
      else d),
   (docs.filter (fun d => d.id = did && d.user_id = uid)).length)

/-! ## Helper lemmas about runs of the gemini-generate function -/

/-- A run that passes every check and extracts text returns the success
response; the stored row is incremented exactly when the update write
succeeds. -/
theorem geminiGenerate_run_success (a p dt : String) (u : UsageRow)
    (g : GeminiResult) (upd : Bool) (text : String)
    (hp : jsTrimEmpty p = false) (hd : jsTrimEmpty dt = false)
    (hdeny : serverLimitDenies (userLimitFor u.plan) u.ai_generations_used = false)
    (hx : extractContent g = some text) :
    geminiGenerate .post true (some a) p dt (some u) g upd =
      { response := { status := 200, success := true, error := none,
                      limit_reached := false, content := some text,
                      usage := some { used := u.ai_generations_used + 1,
                                      limit := userLimitFor u.plan,
                                      plan := u.plan } },
        newUsage :=
          if upd then
            some { ai_generations_used := u.ai_generations_used + 1,
                   plan := u.plan }
          else some u,
        geminiCalled := true } := by
  simp [geminiGenerate, hp, hd, hdeny, hx]

/-- A run that passes every check but whose completion outcome yields no
text returns the 500 error and leaves the row untouched. -/
theorem geminiGenerate_run_fail (a p dt : String) (u : UsageRow)
    (g : GeminiResult) (upd : Bool)
    (hp : jsTrimEmpty p = false) (hd : jsTrimEmpty dt = false)
    (hdeny : serverLimitDenies (userLimitFor u.plan) u.ai_generations_used = false)
    (hx : extractContent g = none) :
    geminiGenerate .post true (some a) p dt (some u) g upd =
      { response := errResponse 500 "Gemini generation failed",
        newUsage := some u, geminiCalled := true } := by
  simp [geminiGenerate, hp, hd, hdeny, hx]

/-- A run denied by the limit check returns the 429 response without
calling the completion service or touching the row. -/
theorem geminiGenerate_run_denied (a p dt : String) (u : UsageRow)
    (g : GeminiResult) (upd : Bool)
    (hp : jsTrimEmpty p = false) (hd : jsTrimEmpty dt = false)
    (hdeny : serverLimitDenies (userLimitFor u.plan) u.ai_generations_used = true) :
    geminiGenerate .post true (some a) p dt (some u) g upd =
      { response :=
          { status := 429, success := false,
            error := some "AI generation limit reached. Please upgrade your plan to continue.",
            limit_reached := true, content := none, usage := none },
        newUsage := some u, geminiCalled := false } := by
  simp [geminiGenerate, hp, hd, hdeny]

/-- Inversion: a success response can only arise from a POST run with the
key configured, an authenticated user, valid inputs, a usage row that
passes the limit check, and extracted text. -/
theorem geminiGenerate_success_inversion (m : ReqMethod) (k : Bool)
    (au : Option String) (p dt : String) (ur : Option UsageRow)
    (g : GeminiResult) (upd : Bool)
    (h : (geminiGenerate m k au p dt ur g upd).response.success = true) :
    m = .post ∧ k = true ∧ au.isSome = true ∧ jsTrimEmpty p = false ∧
    jsTrimEmpty dt = false ∧ ∃ u, ur = some u ∧
      serverLimitDenies (userLimitFor u.plan) u.ai_generations_used = false ∧
      ∃ t, extractContent g = some t := by
  cases m with
  | options => simp [geminiGenerate] at h
  | other => simp [geminiGenerate, errResponse] at h
  | post =>
    cases k with
    | false => simp [geminiGenerate, errResponse] at h
    | true =>
      cases au with
      | none => simp [geminiGenerate, errResponse] at h
      | some a =>
        by_cases hp : jsTrimEmpty p = true
        · simp [geminiGenerate, errResponse, hp] at h
        · by_cases hd : jsTrimEmpty dt = true
          · simp [geminiGenerate, errResponse, hp, hd] at h
          · cases ur with
            | none => simp [geminiGenerate, errResponse, hp, hd] at h
            | some u =>
              by_cases hdeny :
                  serverLimitDenies (userLimitFor u.plan) u.ai_generations_used = true
              · simp [geminiGenerate, hp, hd, hdeny] at h
              · rw [Bool.not_eq_true] at hdeny
                cases hx : extractContent g with
                | none => simp [geminiGenerate, errResponse, hp, hd, hdeny, hx] at h
                | some t =>
                  exact ⟨rfl, rfl, rfl, Bool.of_not_eq_true hp, Bool.of_not_eq_true hd, u, rfl, hdeny, t, rfl⟩

/-- Inversion: the completion service is called only on a POST run with
the key configured, an authenticated user, valid inputs, and a usage row
that passes the limit check. -/
theorem geminiGenerate_called_inversion (m : ReqMethod) (k : Bool)
    (au : Option String) (p dt : String) (ur : Option UsageRow)
    (g : GeminiResult) (upd : Bool)
    (h : (geminiGenerate m k au p dt ur g upd).geminiCalled = true) :
    m = .post ∧ k = true ∧ au.isSome = true ∧ jsTrimEmpty p = false ∧
    jsTrimEmpty dt = false ∧ ∃ u, ur = some u ∧
      serverLimitDenies (userLimitFor u.plan) u.ai_generations_used = false := by
  cases m with
  | options => simp [geminiGenerate] at h
  | other => simp [geminiGenerate, errResponse] at h
  | post =>
    cases k with
    | false => simp [geminiGenerate, errResponse] at h
    | true =>
      cases au with
      | none => simp [geminiGenerate, errResponse] at h
      | some a =>
        by_cases hp : jsTrimEmpty p = true
        · simp [geminiGenerate, errResponse, hp] at h
        · by_cases hd : jsTrimEmpty dt = true
          · simp [geminiGenerate, errResponse, hp, hd] at h
          · cases ur with
            | none => simp [geminiGenerate, errResponse, hp, hd] at h
            | some u =>
              by_cases hdeny :
                  serverLimitDenies (userLimitFor u.plan) u.ai_generations_used = true
              · simp [geminiGenerate, hp, hd, hdeny] at h
              · rw [Bool.not_eq_true] at hdeny
                exact ⟨rfl, rfl, rfl, Bool.of_not_eq_true hp, Bool.of_not_eq_true hd, u, rfl, hdeny⟩

/-! ## Claims -/

/-- C1 (counterexample): the claim as stated is false.  On a run where
every check passes but the usage-update write fails, the proxy still
answers with success: the response reports `used = 1` while the stored
row is left at `ai_generations_used = 0` — the counter is not
incremented and the snapshot does not match the stored value. -/
theorem C1_counterexample :
    (geminiGenerate .post true (some "u") "hi" "nda" (some ⟨0, "free"⟩)
        (.ok (some [⟨some ⟨some [⟨some "doc"⟩]⟩⟩])) false).response.success = true ∧
    (geminiGenerate .post true (some "u") "hi" "nda" (some ⟨0, "free"⟩)
        (.ok (some [⟨some ⟨some [⟨some "doc"⟩]⟩⟩])) false).response.usage =
      some ⟨1, 1, "free"⟩ ∧
    (geminiGenerate .post true (some "u") "hi" "nda" (some ⟨0, "free"⟩)
        (.ok (some [⟨some ⟨some [⟨some "doc"⟩]⟩⟩])) false).newUsage =
      some ⟨0, "free"⟩ := by
  decide

/-- C1 (amended): provided the usage-update write succeeds, every
generation request the proxy answers with success increments the stored
`ai_generations_used` by exactly 1 and the response's usage snapshot
reports that incremented value.  (When the write fails, the code logs
and still answers success, so the unamended claim fails; see the
counterexample.) -/
theorem C1_increment_on_success (m : ReqMethod) (k : Bool)
    (au : Option String) (p dt : String) (ur : Option UsageRow)
    (g : GeminiResult)
    (h : (geminiGenerate m k au p dt ur g true).response.success = true) :
    ∃ u, ur = some u ∧
      (geminiGenerate m k au p dt ur g true).newUsage =
        some { ai_generations_used := u.ai_generations_used + 1, plan := u.plan } ∧
      (geminiGenerate m k au p dt ur g true).response.usage =
        some { used := u.ai_generations_used + 1,
               limit := userLimitFor u.plan, plan := u.plan } := by
  obtain ⟨hm, hk, hau, hp, hd, u, hur, hdeny, t, hx⟩ :=
    geminiGenerate_success_inversion m k au p dt ur g true h
  subst hm; subst hk; subst hur
  obtain ⟨a, ha⟩ := Option.isSome_iff_exists.mp hau
  subst ha
  refine ⟨u, rfl, ?_⟩
  rw [geminiGenerate_run_success a p dt u g true t hp hd hdeny hx]
  simp

/-- C1 witness: a concrete successful run with the write succeeding. -/
theorem C1_witness :
    (geminiGenerate .post true (some "u") "hi" "nda" (some ⟨0, "free"⟩)
        (.ok (some [⟨some ⟨some [⟨some "doc"⟩]⟩⟩])) true).response.success = true ∧
    (∃ u, (some (⟨0, "free"⟩ : UsageRow)) = some u ∧
      (geminiGenerate .post true (some "u") "hi" "nda" (some ⟨0, "free"⟩)
          (.ok (some [⟨some ⟨some [⟨some "doc"⟩]⟩⟩])) true).newUsage =
        some { ai_generations_used := u.ai_generations_used + 1, plan := u.plan } ∧
      (geminiGenerate .post true (some "u") "hi" "nda" (some ⟨0, "free"⟩)
          (.ok (some [⟨some ⟨some [⟨some "doc"⟩]⟩⟩])) true).response.usage =
        some { used := u.ai_generations_used + 1,
               limit := userLimitFor u.plan, plan := u.plan }) :=
  ⟨by decide,
   C1_increment_on_success .post true (some "u") "hi" "nda" (some ⟨0, "free"⟩)
     (.ok (some [⟨some ⟨some [⟨some "doc"⟩]⟩⟩])) (by decide)⟩

/-- C2: every request that fails after the limit check — the completion
service was actually called and its outcome yields no usable text
(HTTP error, no candidates, candidate without content or parts, or
empty generated text) — is answered with a 500 error response carrying
no content, and the stored usage row is left exactly as it was. -/
theorem C2_no_increment_on_failure (m : ReqMethod) (k : Bool)
    (au : Option String) (p dt : String) (ur : Option UsageRow)
    (g : GeminiResult) (upd : Bool)
    (hcalled : (geminiGenerate m k au p dt ur g upd).geminiCalled = true)
    (hfail : geminiFails g = true) :
    (geminiGenerate m k au p dt ur g upd).response.status = 500 ∧
    (geminiGenerate m k au p dt ur g upd).response.success = false ∧
    (geminiGenerate m k au p dt ur g upd).response.content = none ∧
    (geminiGenerate m k au p dt ur g upd).newUsage = ur := by
  obtain ⟨hm, hk, hau, hp, hd, u, hur, hdeny⟩ :=
    geminiGenerate_called_inversion m k au p dt ur g upd hcalled
  subst hm; subst hk; subst hur
  obtain ⟨a, ha⟩ := Option.isSome_iff_exists.mp hau
  subst ha
  have hx : extractContent g = none := by
    unfold geminiFails at hfail
    exact Option.isNone_iff_eq_none.mp hfail
  rw [geminiGenerate_run_fail a p dt u g upd hp hd hdeny hx]
  simp [errResponse]

/-- C2 witness: a concrete run where the completion service answers with
an HTTP error. -/
theorem C2_witness :
    ((geminiGenerate .post true (some "u") "hi" "nda" (some ⟨0, "free"⟩)
        (.httpError 500 "boom") true).geminiCalled = true ∧
     geminiFails (.httpError 500 "boom") = true) ∧
    ((geminiGenerate .post true (some "u") "hi" "nda" (some ⟨0, "free"⟩)
        (.httpError 500 "boom") true).response.status = 500 ∧
     (geminiGenerate .post true (some "u") "hi" "nda" (some ⟨0, "free"⟩)
        (.httpError 500 "boom") true).response.success = false ∧
     (geminiGenerate .post true (some "u") "hi" "nda" (some ⟨0, "free"⟩)
        (.httpError 500 "boom") true).response.content = none ∧
     (geminiGenerate .post true (some "u") "hi" "nda" (some ⟨0, "free"⟩)
        (.httpError 500 "boom") true).newUsage = some ⟨0, "free"⟩) :=
  ⟨⟨by decide, by decide⟩,
   C2_no_increment_on_failure .post true (some "u") "hi" "nda"
     (some ⟨0, "free"⟩) (.httpError 500 "boom") true (by decide) (by decide)⟩

/-- C3: an authenticated POST request with valid inputs whose usage row
is denied by the limit check is answered with HTTP 429 and
`limit_reached: true`, the completion service is never called, and the
stored usage row is unchanged. -/
theorem C3_limit_reached (a p dt : String) (u : UsageRow)
    (g : GeminiResult) (upd : Bool)
    (hp : jsTrimEmpty p = false) (hd : jsTrimEmpty dt = false)
    (hdeny : serverLimitDenies (userLimitFor u.plan) u.ai_generations_used = true) :
    (geminiGenerate .post true (some a) p dt (some u) g upd).response.status = 429 ∧
    (geminiGenerate .post true (some a) p dt (some u) g upd).response.limit_reached = true ∧
    (geminiGenerate .post true (some a) p dt (some u) g upd).geminiCalled = false ∧
    (geminiGenerate .post true (some a) p dt (some u) g upd).newUsage = some u := by
  rw [geminiGenerate_run_denied a p dt u g upd hp hd hdeny]
  simp

/-- C3 witness: Scenario A — a free-plan user with
`ai_generations_used = 1` against limit 1. -/
theorem C3_witness :
    (jsTrimEmpty "hi" = false ∧ jsTrimEmpty "nda" = false ∧
     serverLimitDenies (userLimitFor "free") 1 = true) ∧
    ((geminiGenerate .post true (some "u") "hi" "nda" (some ⟨1, "free"⟩)
        (.httpError 500 "") true).response.status = 429 ∧
     (geminiGenerate .post true (some "u") "hi" "nda" (some ⟨1, "free"⟩)
        (.httpError 500 "") true).response.limit_reached = true ∧
     (geminiGenerate .post true (some "u") "hi" "nda" (some ⟨1, "free"⟩)
        (.httpError 500 "") true).geminiCalled = false ∧
     (geminiGenerate .post true (some "u") "hi" "nda" (some ⟨1, "free"⟩)
        (.httpError 500 "") true).newUsage = some ⟨1, "free"⟩) :=
  ⟨⟨by decide, by decide, by decide⟩,
   C3_limit_reached "u" "hi" "nda" ⟨1, "free"⟩ (.httpError 500 "") true
     (by decide) (by decide) (by decide)⟩

/-- C4 (counterexample): the claim as stated is false on the server side.
The edge function's guard `userLimit > 0 && used >= userLimit`, applied
to a limit of exactly 0 and counter 0, does not deny — it treats 0 like
the unlimited sentinel. -/
theorem C4_counterexample : serverLimitDenies 0 0 = false := by
  decide

/-- C4 (amended): the client-side check does always deny when the limit
is exactly 0, for every counter value including 0; the server-side guard
instead treats a limit of exactly 0 as unlimited (it never denies), but
the server never derives a limit of 0: for every plan string the derived
`userLimit` is nonzero, because the JavaScript `|| 1` default coerces
both an unknown plan and a falsy 0 to 1. -/
theorem C4_zero_limit (used : Nat) (plan : String) :
    clientAllows 0 used = false ∧
    serverLimitDenies 0 used = false ∧
    userLimitFor plan ≠ 0 := by
  refine ⟨?_, ?_, ?_⟩
  · simp [clientAllows]
  · simp [serverLimitDenies]
  · unfold userLimitFor limitsLookup jsOrOne
    by_cases h1 : plan = "free" <;> by_cases h2 : plan = "pro" <;>
      by_cases h3 : plan = "business" <;> simp [h1, h2, h3]

/-- C5: `getPlanLimits` is total and pure with the fixed limits for the
three known plans and free's limits for any other string; and the
client-side usage check built on it denies whenever the counter has
reached a non-unlimited limit and always allows when the limit is the
unlimited sentinel -1. -/
theorem C5_plan_limits :
    getPlanLimits "free" =
      ⟨1, 3, ["Basic templates", "PDF export", "Email support"]⟩ ∧
    getPlanLimits "pro" =
      ⟨10, 50, ["All templates", "PDF and Google export", "Priority support", "Team collaboration"]⟩ ∧
    getPlanLimits "business" =
      ⟨-1, -1, ["Everything in Pro", "Custom templates", "API access", "Dedicated support", "Advanced analytics"]⟩ ∧
    (∀ s : String, s ≠ "free" → s ≠ "pro" → s ≠ "business" →
      getPlanLimits s = getPlanLimits "free") ∧
    (∀ (uid n used : Nat) (p : String),
      ((getPlanLimits p).aiGenerations ≠ -1 →
        (getPlanLimits p).aiGenerations ≤ (used : Int) →
        (checkUsageLimits (some uid) (some ⟨used, p⟩) (some n)).canUseAI = false) ∧
      ((getPlanLimits p).aiGenerations = -1 →
        (checkUsageLimits (some uid) (some ⟨used, p⟩) (some n)).canUseAI = true)) := by
  refine ⟨rfl, rfl, rfl, ?_, ?_⟩
  · intro s h1 h2 h3
    simp [getPlanLimits, h1, h2, h3]
  · intro uid n used p
    have hc : (checkUsageLimits (some uid) (some ⟨used, p⟩) (some n)).canUseAI =
        clientAllows (getPlanLimits p).aiGenerations used := rfl
    constructor
    · intro h1 h2
      rw [hc]
      simp [clientAllows]
      omega
    · intro h1
      rw [hc]
      simp [clientAllows, h1]

/-- C5 witness: the default case on an unknown plan string, a denied
free-plan user at the limit, and an always-allowed business-plan user. -/
theorem C5_witness :
    (("custom" : String) ≠ "free" ∧ ("custom" : String) ≠ "pro" ∧
     ("custom" : String) ≠ "business" ∧
     getPlanLimits "custom" = getPlanLimits "free") ∧
    ((getPlanLimits "free").aiGenerations ≠ -1 ∧
     (getPlanLimits "free").aiGenerations ≤ ((1 : Nat) : Int) ∧
     (checkUsageLimits (some 7) (some ⟨1, "free"⟩) (some 0)).canUseAI = false) ∧
    ((getPlanLimits "business").aiGenerations = -1 ∧
     (checkUsageLimits (some 7) (some ⟨99, "business"⟩) (some 0)).canUseAI = true) :=
  ⟨⟨by decide, by decide, by decide,
    C5_plan_limits.2.2.2.1 "custom" (by decide) (by decide) (by decide)⟩,
   ⟨by decide, by decide,
    (C5_plan_limits.2.2.2.2 7 0 1 "free").1 (by decide) (by decide)⟩,
   ⟨by decide,
    (C5_plan_limits.2.2.2.2 7 0 99 "business").2 (by decide)⟩⟩

/-- C6: when every document carrying the requested id belongs to user
`a` and a different user `b` makes the request, the summarize handler's
ownership check answers 404, the owner-scoped query finds nothing, an
RLS-governed update by `b` changes no row (zero rows affected), and no
document with that id is visible to `b` — neither existence nor content
leaks. -/
theorem C6_cross_user_not_found (docs : List Document) (did a b : Nat)
    (t c : String)
    (hA : ∀ d ∈ docs, d.id = did → d.user_id = a) (hb : b ≠ a) :
    summarizeOwnershipStatus docs did b = 404 ∧
    findOwnedDocument docs did b = none ∧
    rlsUpdateDocument docs b did t c = (docs, 0) ∧
    (∀ d ∈ rlsVisible docs b, d.id ≠ did) := by
  have hnot : ∀ d ∈ docs, ¬ (decide (d.id = did) && decide (d.user_id = b)) = true := by
    intro d hd hdb
    simp only [Bool.and_eq_true, decide_eq_true_eq] at hdb
    exact hb (hdb.2.symm.trans (hA d hd hdb.1))
  have hfilter : docs.filter (fun d => d.id = did && d.user_id = b) = [] :=
    List.filter_eq_nil_iff.mpr hnot
  have hfind : findOwnedDocument docs did b = none := by
    unfold findOwnedDocument
    rw [hfilter]
  refine ⟨?_, hfind, ?_, ?_⟩
  · unfold summarizeOwnershipStatus
    rw [hfind]
  · unfold rlsUpdateDocument
    rw [hfilter]
    have hmap : docs.map (fun d =>
        if d.id = did && d.user_id = b then
          { d with title := t, content := c }
        else d) = docs := by
      have := List.map_congr_left (l := docs)
        (f := fun d =>
          if d.id = did && d.user_id = b then
            { d with title := t, content := c }
          else d)
        (g := id) (fun d hd => if_neg (hnot d hd))
      simpa using this
    rw [hmap]
    rfl
  · intro d hd heq
    rw [rlsVisible, List.mem_filter] at hd
    exact hb ((decide_eq_true_eq.mp hd.2).symm.trans (hA d hd.1 heq))

/-- C6 witness: a single document with id 1 owned by user 10, requested
by user 20. -/
theorem C6_witness :
    ((∀ d ∈ [(⟨1, 10, "t", "c"⟩ : Document)], d.id = 1 → d.user_id = 10) ∧
     (20 : Nat) ≠ 10) ∧
    (summarizeOwnershipStatus [⟨1, 10, "t", "c"⟩] 1 20 = 404 ∧
     findOwnedDocument [⟨1, 10, "t", "c"⟩] 1 20 = none ∧
     rlsUpdateDocument [⟨1, 10, "t", "c"⟩] 20 1 "x" "y" = ([⟨1, 10, "t", "c"⟩], 0) ∧
     (∀ d ∈ rlsVisible [⟨1, 10, "t", "c"⟩] 20, d.id ≠ 1)) :=
  ⟨⟨by simp, by decide⟩,
   C6_cross_user_not_found [⟨1, 10, "t", "c"⟩] 1 10 20 "x" "y"
     (by simp) (by decide)⟩

/-- C7: `handleDeleteDocument` is idempotent at the caller-visible
interface: the first call reports success, and calling it again on the
resulting state reports the same success and changes nothing — deleting
an already-deleted id is never an error to the caller. -/
theorem C7_delete_idempotent (docs : List Document) (did uid : Nat) :
    (handleDeleteDocument docs did uid).1 = .success ∧
    handleDeleteDocument (handleDeleteDocument docs did uid).2 did uid =
      (.success, (handleDeleteDocument docs did uid).2) := by
  have hrun : ∀ l : List Document, handleDeleteDocument l did uid =
      (.success, l.filter (fun d => !(d.id = did && d.user_id = uid))) :=
    fun l => rfl
  refine ⟨by rw [hrun], ?_⟩
  rw [hrun, hrun]
  simp [List.filter_filter, Bool.and_self]

/-- C8: the heuristic detectors are total with fixed fallbacks; on the
Scenario B prompt they classify the document as `nda` and the
jurisdiction as `DE`; and a message matching none of the ordered
substring rules falls back to `nda` and `Netherlands`. -/
theorem C8_detection :
    detectDocumentType
        "Create an NDA for a 2-year confidentiality period between two companies in Germany" = "nda" ∧
    detectCountry
        "Create an NDA for a 2-year confidentiality period between two companies in Germany" = "DE" ∧
    (∀ msg : String,
      lowerIncludes msg "privacy policy" = false →
      lowerIncludes msg "privacy" = false →
      lowerIncludes msg "gdpr" = false →
      lowerIncludes msg "nda" = false →
      lowerIncludes msg "non-disclosure" = false →
      lowerIncludes msg "partnership" = false →
      lowerIncludes msg "terms of service" = false →
      lowerIncludes msg "tos" = false →
      lowerIncludes msg "employment" = false →
      lowerIncludes msg "freelance" = false →
      lowerIncludes msg "consulting" = false →
      detectDocumentType msg = "nda") ∧
    (∀ msg : String,
      lowerIncludes msg "netherlands" = false →
      lowerIncludes msg "dutch" = false →
      lowerIncludes msg "united states" = false →
      lowerIncludes msg "usa" = false →
      lowerIncludes msg "united kingdom" = false →
      lowerIncludes msg "uk" = false →
      lowerIncludes msg "germany" = false →
      lowerIncludes msg "german" = false →
      lowerIncludes msg "france" = false →
      lowerIncludes msg "french" = false →
      detectCountry msg = "Netherlands") := by
  refine ⟨by decide, by decide, ?_, ?_⟩
  · intro msg h1 h2 h3 h4 h5 h6 h7 h8 h9 h10 h11
    simp [detectDocumentType, h1, h2, h3, h4, h5, h6, h7, h8, h9, h10, h11]
  · intro msg h1 h2 h3 h4 h5 h6 h7 h8 h9 h10
    simp [detectCountry, h1, h2, h3, h4, h5, h6, h7, h8, h9, h10]

/-- C8 witness: the message `zz` matches no rule and gets both
defaults. -/
theorem C8_witness :
    (lowerIncludes "zz" "privacy policy" = false ∧
     lowerIncludes "zz" "privacy" = false ∧
     lowerIncludes "zz" "gdpr" = false ∧
     lowerIncludes "zz" "nda" = false ∧
     lowerIncludes "zz" "non-disclosure" = false ∧
     lowerIncludes "zz" "partnership" = false ∧
     lowerIncludes "zz" "terms of service" = false ∧
     lowerIncludes "zz" "tos" = false ∧
     lowerIncludes "zz" "employment" = false ∧
     lowerIncludes "zz" "freelance" = false ∧
     lowerIncludes "zz" "consulting" = false ∧
     lowerIncludes "zz" "netherlands" = false ∧
     lowerIncludes "zz" "dutch" = false ∧
     lowerIncludes "zz" "united states" = false ∧
     lowerIncludes "zz" "usa" = false ∧
     lowerIncludes "zz" "united kingdom" = false ∧
     lowerIncludes "zz" "uk" = false ∧
     lowerIncludes "zz" "germany" = false ∧
     lowerIncludes "zz" "german" = false ∧
     lowerIncludes "zz" "france" = false ∧
     lowerIncludes "zz" "french" = false) ∧
    detectDocumentType "zz" = "nda" ∧
    detectCountry "zz" = "Netherlands" :=
  ⟨by decide,
   C8_detection.2.2.1 "zz" (by decide) (by decide) (by decide) (by decide)
     (by decide) (by decide) (by decide) (by decide) (by decide) (by decide)
     (by decide),
   C8_detection.2.2.2 "zz" (by decide) (by decide) (by decide) (by decide)
     (by decide) (by decide) (by decide) (by decide) (by decide) (by decide)⟩

/-- C9: on a clean run, `getUserUsageData` for an authenticated caller
with no existing `user_usage` row inserts and returns a row with
`ai_generations_used = 0` and `plan = free`; for a caller with an
existing row it returns that row and leaves the database unchanged. -/
theorem C9_lazy_usage_row (uid : Nat) (row : UsageRow) :
    getUserUsageData (some uid) none false false =
      (some ⟨0, "free"⟩, some ⟨0, "free"⟩) ∧
    getUserUsageData (some uid) (some row) false false = (some row, some row) :=
  ⟨rfl, rfl⟩

/-- C10: `checkUsageLimits` fails closed: whenever the caller is
unauthenticated, the usage row cannot be obtained, or the document count
query fails, it returns the catch-branch value — both actions denied and
free-plan default limits in the reported usage. -/
theorem C10_check_fails_closed (user : Option Nat) (usage : Option UsageRow)
    (docCount : Option Nat)
    (h : user = none ∨ usage = none ∨ docCount = none) :
    checkUsageLimits user usage docCount = usageCheckFailClosed ∧
    usageCheckFailClosed.canUseAI = false ∧
    usageCheckFailClosed.canCreateDocument = false ∧
    usageCheckFailClosed.aiLimit = (getPlanLimits "free").aiGenerations ∧
    usageCheckFailClosed.docLimit = (getPlanLimits "free").documents := by
  refine ⟨?_, rfl, rfl, rfl, rfl⟩
  rcases h with h | h | h
  · subst h; rfl
  · subst h
    cases user with
    | none => rfl
    | some _ => rfl
  · subst h
    cases user with
    | none => rfl
    | some _ =>
      cases usage with
      | none => rfl
      | some _ => rfl

/-- C10 witness: an unauthenticated caller. -/
theorem C10_witness :
    ((none : Option Nat) = none ∨ (some (⟨5, "pro"⟩ : UsageRow)) = none ∨
      (some (2 : Nat)) = none) ∧
    checkUsageLimits none (some ⟨5, "pro"⟩) (some 2) = usageCheckFailClosed :=
  ⟨Or.inl rfl,
   (C10_check_fails_closed none (some ⟨5, "pro"⟩) (some 2) (Or.inl rfl)).1⟩

end Docwise
